import Mathlib

/-!
Verification of the retrieval engine and two-stage analysis pipeline
(`src/engine.py`, `src/app.py`) against its natural-language specification.

The Python code is shallowly embedded: floats are modelled as exact rationals,
`json.loads` and the OpenAI embedding/completion services are external
collaborators passed in as function parameters, raised exceptions become
`Except` error values, and the `Retriever`'s mutable state becomes explicit
state passing.  `engine.py` in the repository is truncated mid-file (it ends
inside the f-string of `build_context`'s external-document branch, and the
`analyze` function that `src/app.py` imports from it is missing entirely);
the missing parts are modelled from the spec and are marked as such.
-/

/-- JSON values as produced by Python's `json.loads`: `None`, booleans,
numbers (modelled as exact rationals), strings, lists, and dicts
(association lists; `json.loads` yields distinct keys). -/
inductive JVal where
  | null : JVal
  | bool : Bool → JVal
  | num : ℚ → JVal
  | str : String → JVal
  | arr : List JVal → JVal
  | obj : List (String × JVal) → JVal

instance : Inhabited JVal := ⟨JVal.null⟩

/-- Python truthiness (`bool(x)`) of a decoded JSON value. -/
def truthy : JVal → Bool
  | .null => false
  | .bool b => b
  | .num q => q != 0
  | .str s => s != ""
  | .arr l => !l.isEmpty
  | .obj l => !l.isEmpty

/-- Python `str()` on a decoded JSON value, as used by the f-strings and
`str(...)` calls of `engine.py`.  Strings, booleans and `None` follow Python
exactly; the rendering of numbers, lists and dicts is simplified (no claim
depends on their exact spelling). -/
def pyStr : JVal → String
  | .null => "None"
  | .bool true => "True"
  | .bool false => "False"
  | .num q =>
      if q.den = 1 then toString q.num else toString q.num ++ "/" ++ toString q.den
  | .str s => s
  | .arr _ => "[...]"
  | .obj _ => "\x7b...\x7d"

/-- Python `str.strip()`: drop leading and trailing whitespace (implemented
over the character list so that concrete inputs reduce in the kernel). -/
def pyStrip (s : String) : String :=
  ⟨(((s.data.dropWhile Char.isWhitespace).reverse.dropWhile Char.isWhitespace).reverse)⟩

/-- Digits of a decimal literal folded to a natural number. -/
def digitsToNat (l : List Char) : Nat :=
  l.foldl (fun n c => 10 * n + (c.toNat - 48)) 0

/-- Python `float(s)` on a string, modelled for optionally signed decimal
literals such as `"1.5"`, `"+2"`, `"-3.25"` (exponent, `inf` and `nan` forms
are omitted; no claim depends on them).  Returns `none` when the string is not
numeric, which in Python is a `ValueError`. -/
def strToRat? (s : String) : Option ℚ :=
  let l := (pyStrip s).data
  let signed : ℚ × List Char :=
    match l with
    | '-' :: t => (-1, t)
    | '+' :: t => (1, t)
    | t => (1, t)
  match (signed.2.splitOn '.') with
  | [ip] =>
      if !ip.isEmpty && ip.all Char.isDigit then some (signed.1 * (digitsToNat ip : ℚ))
      else none
  | [ip, fp] =>
      if !(ip.isEmpty && fp.isEmpty) && ip.all Char.isDigit && fp.all Char.isDigit then
        some (signed.1 * (digitsToNat (ip ++ fp) : ℚ) / ((10 : ℚ) ^ fp.length))
      else none
  | _ => none

/-- Python `float(x)` applied to a decoded JSON value (`engine.py` line 75):
numbers pass through, booleans become 0/1, numeric strings are parsed, and
anything else raises (`Except.error` with the Python message). -/
def pyFloat : JVal → Except String ℚ
  | .num q => .ok q
  | .bool b => .ok (if b then 1 else 0)
  | .str s =>
      match strToRat? s with
      | some q => .ok q
      | none => .error ("could not convert string to float: " ++ s)
  | .null => .error "float() argument must be a string or a real number, not NoneType"
  | .arr _ => .error "float() argument must be a string or a real number, not list"
  | .obj _ => .error "float() argument must be a string or a real number, not dict"

/-- Python `dict.get(key, default)` on a decoded JSON object. -/
def objGet (o : List (String × JVal)) (key : String) (dflt : JVal) : JVal :=
  (o.lookup key).getD dflt

/-- Head-of-list dict test (`items and isinstance(items[0], dict)`). -/
def headIsDict : List JVal → Bool
  | (.obj _) :: _ => true
  | _ => false

/-- The `add` closure of `Retriever._load_cards` (`engine.py` lines 44-56):
the section line it would append to `body`, or `none` when it appends nothing.
A falsy `items` returns immediately; a non-list `items` falls through the
`isinstance(items, list)` test and contributes nothing; a list whose first
element is a dict (when a `field` is given) is reduced to that field of its
dict elements, skipping empties; otherwise the truthy elements are rendered
with `str`.  A non-empty collection is joined with `" | "` after the label. -/
def addSection (label : String) (items : JVal) (field : Option String) : Option String :=
  if !truthy items then none
  else
    match items with
    | .arr l =>
        if !l.isEmpty && headIsDict l && field.isSome then
          let vals := l.filterMap fun i =>
            match i with
            | .obj o => some (pyStr (objGet o (field.getD "") (.str "")))
            | _ => none
          let vals := vals.filter (· != "")
          if !vals.isEmpty then some (label ++ ": " ++ String.intercalate " | " vals) else none
        else
          let vals := (l.filter truthy).map pyStr
          if !vals.isEmpty then some (label ++ ": " ++ String.intercalate " | " vals) else none
    | _ => none

/-- Header line of a card's text (`engine.py` lines 65-68). -/
def headerOf (card : List (String × JVal)) : String :=
  pyStr (objGet card "title" (.str "")) ++ " — " ++ pyStr (objGet card "author" (.str "")) ++
    " | " ++ pyStr (objGet card "pack" (.str "")) ++ " | " ++
    pyStr (objGet card "subtopic" (.str "")) ++ "\n"

/-- The `body` list built by the five `add` calls (`engine.py` lines 58-62). -/
def bodyOf (card : List (String × JVal)) : List String :=
  [addSection "THESES" (objGet card "theses" .null) (some "text"),
   addSection "QUOTES" (objGet card "quotes" .null) (some "text"),
   addSection "COUNTERS" (objGet card "counters" .null) (some "text"),
   addSection "IMPLICATIONS" (objGet card "implications" .null) none,
   addSection "FALSIFIERS" (objGet card "falsifiers" .null) none].reduceOption

/-- The card text (`engine.py` line 69): header plus the non-empty body lines
joined by newlines. -/
def textOf (card : List (String × JVal)) : String :=
  headerOf card ++ String.intercalate "\n" ((bodyOf card).filter (· != ""))

/-- The `meta` mapping stored on a snippet (`engine.py` lines 77-82); the
values are stored as decoded, not stringified. -/
structure Meta where
  title : JVal
  parent : JVal
  subtopic : JVal
  tags : JVal

instance : Inhabited Meta := ⟨⟨.null, .null, .null, .null⟩⟩

/-- The `Snippet` dataclass (`engine.py` lines 16-22). -/
structure Snippet where
  id : String
  pack : String
  weight : ℚ
  text : String
  meta : Meta

instance : Inhabited Snippet := ⟨⟨"", "", 0, "", default⟩⟩

/-- Processing of one parsed record inside `Retriever._load_cards`
(`engine.py` lines 42-84): build the text and the `Snippet`.  The float
literal `1.2` (the default weight) is the exact rational `6/5`; `float(...)`
applied to a non-numeric `weight` raises, which aborts the load. -/
def loadCard (card : List (String × JVal)) : Except String Snippet :=
  match pyFloat (objGet card "weight" (.num (6 / 5))) with
  | .error e => .error e
  | .ok w =>
      .ok
        { id := pyStr (objGet card "id" (.str ""))
          pack := pyStr (objGet card "pack" (.str ""))
          weight := w
          text := textOf card
          meta :=
            { title := objGet card "title" (.str "")
              parent := objGet card "parent" (.str "")
              subtopic := objGet card "subtopic" (.str "")
              tags := objGet card "tags" (.arr []) } }

/-- A decoded line that is not a JSON object would make `card.get` raise an
`AttributeError`; objects are processed by `loadCard`. -/
def loadLine (v : JVal) : Except String Snippet :=
  match v with
  | .obj o => loadCard o
  | _ => .error "object has no attribute get"

/-- Errors a corpus load can surface: the `json.JSONDecodeError` raised by
`json.loads` on a malformed line, or a `ValueError`-style error raised while
building a record (for example `float()` on a non-numeric weight). -/
inductive PyErr where
  | jsonDecode : String → PyErr
  | valueError : String → PyErr
deriving DecidableEq

/-- The loop of `Retriever._load_cards` (`engine.py` lines 33-85) over the
file's lines: strip each line, skip blanks, decode with `json.loads` (the
standard-library decoder, passed in as `parse`), and collect the snippets in
order.  A decode failure propagates as raised — note that nothing attaches
the file's line number to it. -/
def load_cards (parse : String → Except String JVal) : List String → Except PyErr (List Snippet)
  | [] => .ok []
  | line :: rest =>
      let l := pyStrip line
      if l = "" then load_cards parse rest
      else
        match parse l with
        | .error e => .error (.jsonDecode e)
        | .ok v =>
            match loadLine v with
            | .error e => .error (.valueError e)
            | .ok s => (load_cards parse rest).map (s :: ·)

/-- Retriever state (`engine.py` lines 25-31): the loaded snippets and the
lazily built embedding matrix (`None` until the first build).  The OpenAI
client and the tokenizer are external and hold no state the spec's claims
touch. -/
structure RState where
  snippets : List Snippet
  embeddings : Option (List (List ℚ))

/-- Dot product of two vectors, the rowwise content of `embeddings @ q`
(`engine.py` line 101). -/
def dot (u v : List ℚ) : ℚ :=
  (List.zipWith (· * ·) u v).sum

/-- The `Retriever._embed` batch (`engine.py` lines 87-92): one request to the
external embedding service followed by L2 normalization of each returned row.
Per the service contract (spec section 6) the response carries one vector per
input string, in input order, so the composite of service call and
normalization is modelled as mapping a per-text function `vec` over the batch;
the normalization arithmetic itself (norm plus the `1e-10` epsilon) is float
numerics internal to `vec`. -/
def embedBatch (vec : String → List ℚ) (texts : List String) : List (List ℚ) :=
  texts.map vec

/-- The `Retriever.ensure_index` method (`engine.py` lines 94-96): build and
store the matrix when it is absent, otherwise do nothing.  The second
component counts the embedding-service batch requests the call makes. -/
def ensure_index (vec : String → List ℚ) (r : RState) : RState × Nat :=
  match r.embeddings with
  | none =>
      ({ snippets := r.snippets
         embeddings := some (embedBatch vec (r.snippets.map (fun s => s.text))) }, 1)
  | some _ => (r, 0)

/-- Contract of `np.argsort(-scores)` (`engine.py` line 104): a permutation of
the row indices along which the scores are non-increasing.  NumPy's default
`kind='quicksort'` is deterministic but is not documented to be stable, so the
order of equal scores is not fixed by the contract; `retrieve` is therefore
parameterized over any conforming `asort`. -/
def SortSpec (asort : List ℚ → List Nat) : Prop :=
  ∀ scores : List ℚ,
    (asort scores).Perm (List.range scores.length) ∧
    (asort scores).Pairwise (fun i j => scores.getD j 0 ≤ scores.getD i 0)

/-- Descending-score order on row indices with ties in index order. -/
def descLe (s : List ℚ) (i j : Nat) : Prop :=
  s.getD j 0 < s.getD i 0 ∨ (s.getD i 0 = s.getD j 0 ∧ i ≤ j)

/-- Descending-score order on row indices with ties in reversed index order. -/
def descLeRev (s : List ℚ) (i j : Nat) : Prop :=
  s.getD j 0 < s.getD i 0 ∨ (s.getD i 0 = s.getD j 0 ∧ j ≤ i)

instance (s : List ℚ) : DecidableRel (descLe s) := fun i j => by
  unfold descLe; infer_instance

instance (s : List ℚ) : DecidableRel (descLeRev s) := fun i j => by
  unfold descLeRev; infer_instance

instance (s : List ℚ) : IsTotal Nat (descLe s) := by
  refine ⟨fun i j => ?_⟩
  rcases lt_trichotomy (s.getD i 0) (s.getD j 0) with h | h | h
  · exact Or.inr (Or.inl h)
  · rcases Nat.le_total i j with hij | hij
    · exact Or.inl (Or.inr ⟨h, hij⟩)
    · exact Or.inr (Or.inr ⟨h.symm, hij⟩)
  · exact Or.inl (Or.inl h)

instance (s : List ℚ) : IsTrans Nat (descLe s) := by
  refine ⟨fun i j k hij hjk => ?_⟩
  rcases hij with h1 | ⟨h1, h1'⟩ <;> rcases hjk with h2 | ⟨h2, h2'⟩
  · exact Or.inl (h2.trans h1)
  · exact Or.inl (h2 ▸ h1)
  · exact Or.inl (h1 ▸ h2)
  · exact Or.inr ⟨h1.trans h2, h1'.trans h2'⟩

instance (s : List ℚ) : IsTotal Nat (descLeRev s) := by
  refine ⟨fun i j => ?_⟩
  rcases lt_trichotomy (s.getD i 0) (s.getD j 0) with h | h | h
  · exact Or.inr (Or.inl h)
  · rcases Nat.le_total j i with hij | hij
    · exact Or.inl (Or.inr ⟨h, hij⟩)
    · exact Or.inr (Or.inr ⟨h.symm, hij⟩)
  · exact Or.inl (Or.inl h)

instance (s : List ℚ) : IsTrans Nat (descLeRev s) := by
  refine ⟨fun i j k hij hjk => ?_⟩
  rcases hij with h1 | ⟨h1, h1'⟩ <;> rcases hjk with h2 | ⟨h2, h2'⟩
  · exact Or.inl (h2.trans h1)
  · exact Or.inl (h2 ▸ h1)
  · exact Or.inl (h1 ▸ h2)
  · exact Or.inr ⟨h1.trans h2, h2'.trans h1'⟩

/-- Descending argsort keeping equal scores in index order — one behavior
allowed for `np.argsort`; used to evaluate `retrieve` on concrete inputs. -/
def argsortStable (scores : List ℚ) : List Nat :=
  List.insertionSort (descLe scores) (List.range scores.length)

/-- Descending argsort putting equal scores in reversed index order — another
behavior allowed by the (unstable) `np.argsort` contract. -/
def argsortRevTies (scores : List ℚ) : List Nat :=
  List.insertionSort (descLeRev scores) (List.range scores.length)

/-- The `Retriever.retrieve` method (`engine.py` lines 98-105): ensure the
index, embed the query, take the dot products against every row, multiply
elementwise by the static weights, argsort descending, keep the first `top_k`
indices, and return the `(snippet, score)` pairs.  `vec` is the embedding map
(see `embedBatch`) and `asort` the `np.argsort` behavior (see `SortSpec`); no
pack-bias mapping enters anywhere — the method has no such parameter.  The
state after the lazy index build is returned alongside the hits. -/
def retrieve (vec : String → List ℚ) (asort : List ℚ → List Nat) (r : RState)
    (query : String) (top_k : Nat) : RState × List (Snippet × ℚ) :=
  let r1 := (ensure_index vec r).1
  let q := vec query
  let sims := (r1.embeddings.getD []).map (fun row => dot row q)
  let weights := r1.snippets.map (fun s => s.weight)
  let scores := List.zipWith (· * ·) sims weights
  let idx := (asort scores).take top_k
  (r1, idx.map (fun i => (r1.snippets.getD i default, scores.getD i 0)))

/-- Two-decimal fixed rendering of a weight (the `:.2f` format of `engine.py`
line 116), computed on the exact rational with round-half-up (no claim depends
on the float rounding mode of Python's formatter). -/
def fmt2 (q : ℚ) : String :=
  let c : Int := round (q * 100)
  let a := c.natAbs
  (if c < 0 then "-" else "") ++ toString (a / 100) ++ "." ++
    (if a % 100 < 10 then "0" else "") ++ toString (a % 100)

/-- One retrieved-card block of `build_context` (`engine.py` lines 113-117). -/
def hitBlock (h : Snippet × ℚ) : String :=
  "[source_id:" ++ h.1.id ++ "] PACK:" ++ h.1.pack ++ " TITLE:" ++ pyStr h.1.meta.title ++
    " SUB:" ++ pyStr h.1.meta.subtopic ++ " WEIGHT:" ++ fmt2 h.1.weight ++ "\n" ++ h.1.text

/-- An ad-hoc external document passed to `build_context` — a Python dict with
optional `id`, `title` and `text` entries. -/
structure Doc where
  id : Option String
  title : Option String
  text : Option String

/-- The `source_id` chosen for an external document (`engine.py` line 120):
the caller-supplied `id` when present, otherwise
`"extra:" + str(abs(hash(d.get('text',''))))`.  Here `pyHash` stands for
Python's builtin `hash` on strings, which is salted per process run
(`PYTHONHASHSEED`), so it is a parameter of the run rather than a fixed
function of the content. -/
def extra_source_id (pyHash : String → Int) (d : Doc) : String :=
  match d.id with
  | some i => i
  | none => "extra:" ++ toString (pyHash (d.text.getD "")).natAbs

/-- Modelled from the spec: the external-document block of `build_context` is
cut off mid f-string in the repository file (`engine.py` line 122 ends inside
`TITLE:{d.get('`).  Per spec section 4.4 the block carries `pack = external`
and `weight = 1.00`; title and document text follow the card-block shape. -/
def extraBlock (pyHash : String → Int) (d : Doc) : String :=
  "[source_id:" ++ extra_source_id pyHash d ++ "] PACK:external TITLE:" ++
    (d.title.getD "") ++ " WEIGHT:1.00\n" ++ (d.text.getD "")

/-- Modelled from the spec: `build_context` (`engine.py` lines 108-122,
truncated before its return) emits one block per hit, then — when the
`extra_docs` argument is truthy — one block per external document, and joins
the blocks with a fixed separator (spec section 4.4); a double newline is used
here. -/
def build_context (pyHash : String → Int) (hits : List (Snippet × ℚ))
    (extra_docs : Option (List Doc)) : String :=
  String.intercalate "\n\n" (hits.map hitBlock ++ (extra_docs.getD []).map (extraBlock pyHash))

/-- Modelled from the spec: the evidence context `analyze` assembles (spec
section 4.5 step 1) — retrieve `top_k` hits for the query and wrap
`pasted_text`, when present, as one external document with no caller id. -/
def contextFor (vec : String → List ℚ) (asort : List ℚ → List Nat)
    (pyHash : String → Int) (r : RState) (query : String) (pasted_text : Option String)
    (top_k : Nat) : String :=
  build_context pyHash (retrieve vec asort r query top_k).2
    (pasted_text.map fun t => [{ id := none, title := none, text := some t }])

/-- Modelled from the spec: the input of the opinion-stage completion request
(spec section 4.5 step 2): system prompt, opinion prompt, query and context. -/
def opinionRequest (vec : String → List ℚ) (asort : List ℚ → List Nat)
    (pyHash : String → Int) (r : RState) (query system_prompt opinion_prompt : String)
    (pasted_text : Option String) (top_k : Nat) : String :=
  system_prompt ++ "\n" ++ opinion_prompt ++ "\n" ++ query ++ "\n" ++
    contextFor vec asort pyHash r query pasted_text top_k

/-- Modelled from the spec: the input of the critique-stage completion request
(spec section 4.5 step 3): system prompt, critique prompt, query, context and
the opinion produced by the first stage. -/
def critiqueRequest (vec : String → List ℚ) (asort : List ℚ → List Nat)
    (pyHash : String → Int) (r : RState) (query system_prompt critique_prompt : String)
    (pasted_text : Option String) (top_k : Nat) (opinion : String) : String :=
  system_prompt ++ "\n" ++ critique_prompt ++ "\n" ++ query ++ "\n" ++
    contextFor vec asort pyHash r query pasted_text top_k ++ "\n" ++ opinion

/-- Modelled from the spec: `analyze` is imported from `engine` by
`src/app.py` (line 3) and called with a query, the retriever, the three
prompts, optional pasted text, `top_k` and `pack_bias` (lines 118-127), but
`engine.py` is truncated before its definition.  Per spec section 4.5 it
assembles the context, then makes two sequential completion calls — the
second conditioned on the first's opinion — and returns
`(opinion, critique, context)`; a failure of either call surfaces as the
completion-service error.  `complete` is the external completion service; the
second component of the result records the inputs of the completion requests
actually issued, in order.  `pack_bias` is accepted as the caller supplies it,
but the visible `retrieve` has no bias parameter, so none reaches scoring. -/
def analyze (complete : String → Except String String) (vec : String → List ℚ)
    (asort : List ℚ → List Nat) (pyHash : String → Int) (r : RState)
    (query system_prompt opinion_prompt critique_prompt : String)
    (pasted_text : Option String) (top_k : Nat) (_pack_bias : List (String × ℚ)) :
    Except String (String × String × String) × List String :=
  let p1 := opinionRequest vec asort pyHash r query system_prompt opinion_prompt pasted_text top_k
  match complete p1 with
  | .error e => (.error e, [p1])
  | .ok opinion =>
      let p2 := critiqueRequest vec asort pyHash r query system_prompt critique_prompt
        pasted_text top_k opinion
      match complete p2 with
      | .error e => (.error e, [p1, p2])
      | .ok critique =>
          (.ok (opinion, critique, contextFor vec asort pyHash r query pasted_text top_k),
           [p1, p2])

/-- Spec-side definition (spec sections 3 and 4.3): `packBias.get(card.pack, 1.0)`
— the caller-supplied multiplier for the card's pack, packs absent from the
mapping defaulting to `1.0`. -/
def biasGet (packBias : List (String × ℚ)) (pack : String) : ℚ :=
  (packBias.lookup pack).getD 1

/-- Spec-side definition, written from the claim's words (spec section 3,
`ScoredHit`) for comparison with the score `retrieve` actually assigns:
cosine similarity of the embedded query and card (the dot product of the
unit vectors `vec` yields) times the card's static weight times the pack
bias. -/
def specScore (vec : String → List ℚ) (packBias : List (String × ℚ))
    (query : String) (s : Snippet) : ℚ :=
  dot (vec query) (vec s.text) * s.weight * biasGet packBias s.pack

/-- Row-alignment invariant (spec section 3): whenever the matrix is present,
row `i` is the embedding of snippet `i`'s text.  A fresh retriever
(`embeddings = none`) satisfies it vacuously. -/
def Aligned (vec : String → List ℚ) (r : RState) : Prop :=
  ∀ E, r.embeddings = some E → E = r.snippets.map (fun s => vec s.text)

/-- The `scores` array that `retrieve` computes (`engine.py` lines 101-103),
as a function of the state and the query: dot products of the stored rows with
the embedded query, times the elementwise static weights. -/
def retrieveScores (vec : String → List ℚ) (r : RState) (query : String) : List ℚ :=
  List.zipWith (· * ·)
    (((ensure_index vec r).1.embeddings.getD []).map (fun row => dot row (vec query)))
    ((ensure_index vec r).1.snippets.map (fun s => s.weight))

/-- The same scores in corpus order, written per card: the score of card `i`
is the dot product of its embedded text with the embedded query, times its
static weight. -/
def scoresOf (vec : String → List ℚ) (r : RState) (query : String) : List ℚ :=
  r.snippets.map (fun s => dot (vec s.text) (vec query) * s.weight)

/-- Concrete fixture: a first card. -/
def snipA : Snippet :=
  { id := "a", pack := "packA", weight := 1, text := "ta", meta := default }

/-- Concrete fixture: a second card in the same pack. -/
def snipB : Snippet :=
  { id := "b", pack := "packA", weight := 1, text := "tb", meta := default }

/-- Concrete fixture: an embedding stub sending every text to the unit vector
`[1]` (a legal service response, one vector per input). -/
def vecOne : String → List ℚ := fun _ => [1]

/-- Concrete fixture: one possible per-run instance of Python's salted string
hash. -/
def pyHashLen : String → Int := fun s => (s.length : Int)

/-- Concrete fixture: the string hash of a run with a different salt. -/
def pyHashLen1 : String → Int := fun s => (s.length : Int) + 1

/-- Concrete fixture: a completion service that always fails. -/
def completeFail : String → Except String String := fun _ => .error "rate limited"

/-- Concrete fixture: a completion service that echoes its input. -/
def completeEcho : String → Except String String := fun s => .ok s

/-- Concrete fixture: a corpus line that is valid JSON but has no `id`. -/
def lineNoId : String := "\x7b\"pack\": \"p\"\x7d"

/-- Concrete fixture: a stub for `json.loads` agreeing with it on the inputs
it is used at — `lineNoId` decodes to the one-entry object, anything else
fails with the message the decoder reports for a bad literal. -/
def parseNoId : String → Except String JVal := fun s =>
  if s = lineNoId then .ok (.obj [("pack", .str "p")])
  else .error "Expecting value: line 1 column 1 (char 0)"

/-- Concrete fixture: a stub for `json.loads` agreeing with it on the inputs
it is used at — the line `{}` decodes to the empty object, anything else
fails with the message the decoder reports for a bad literal; note the
position in that message is within the single decoded line, so it reads
`line 1` wherever the line sits in the file. -/
def parseBad : String → Except String JVal := fun s =>
  if s = "\x7b\x7d" then .ok (.obj [])
  else .error "Expecting value: line 1 column 1 (char 0)"

/-- Concrete fixture: a corpus line whose `weight` is a non-numeric string. -/
def lineHeavy : String := "\x7b\"id\": \"a\", \"weight\": \"heavy\"\x7d"

/-- Concrete fixture: a corpus line whose `weight` is negative. -/
def lineNegW : String := "\x7b\"id\": \"b\", \"weight\": -3\x7d"

/-- Concrete fixture: a stub for `json.loads` agreeing with it on the two
weight-test lines. -/
def parseW : String → Except String JVal := fun s =>
  if s = lineHeavy then .ok (.obj [("id", .str "a"), ("weight", .str "heavy")])
  else if s = lineNegW then .ok (.obj [("id", .str "b"), ("weight", .num (-3))])
  else .error "Expecting value: line 1 column 1 (char 0)"

/-- Concrete fixture: the snippet the loader produces for `lineNoId`. -/
def cardNoIdSnippet : Snippet :=
  ((loadCard [("pack", JVal.str "p")]).toOption).getD default

/-- Concrete fixture: the snippet the loader produces for the empty object. -/
def emptyObjSnippet : Snippet :=
  ((loadCard []).toOption).getD default

/-! Helper lemmas shared by the claim theorems. -/

lemma sortSpec_argsortStable : SortSpec argsortStable := by
  intro scores
  refine ⟨List.perm_insertionSort (descLe scores) (List.range scores.length), ?_⟩
  refine (List.sorted_insertionSort (descLe scores) (List.range scores.length)).imp ?_
  intro i j h
  rcases h with h | ⟨h, _⟩
  · exact le_of_lt h
  · exact le_of_eq h.symm

lemma sortSpec_argsortRevTies : SortSpec argsortRevTies := by
  intro scores
  refine ⟨List.perm_insertionSort (descLeRev scores) (List.range scores.length), ?_⟩
  refine (List.sorted_insertionSort (descLeRev scores) (List.range scores.length)).imp ?_
  intro i j h
  rcases h with h | ⟨h, _⟩
  · exact le_of_lt h
  · exact le_of_eq h.symm

lemma sortSpec_mem_lt {asort : List ℚ → List Nat} (hs : SortSpec asort)
    (scores : List ℚ) : ∀ i ∈ asort scores, i < scores.length := by
  intro i hi
  exact List.mem_range.mp (((hs scores).1).mem_iff.mp hi)

lemma dot_comm (u v : List ℚ) : dot u v = dot v u := by
  unfold dot
  rw [List.zipWith_comm_of_comm (· * ·) mul_comm]

lemma ensure_index_snippets (vec : String → List ℚ) (r : RState) :
    (ensure_index vec r).1.snippets = r.snippets := by
  cases h : r.embeddings <;> simp [ensure_index, h]

lemma ensure_index_embeds (vec : String → List ℚ) (r : RState) (h : Aligned vec r) :
    (ensure_index vec r).1.embeddings = some (r.snippets.map (fun s => vec s.text)) := by
  cases he : r.embeddings with
  | none => simp [ensure_index, he, embedBatch]
  | some E => simp [ensure_index, he, h E he]

lemma aligned_ensure_index (vec : String → List ℚ) (r : RState) (h : Aligned vec r) :
    Aligned vec (ensure_index vec r).1 := by
  intro E hE
  rw [ensure_index_embeds vec r h] at hE
  rw [ensure_index_snippets]
  exact Option.some_inj.mp hE.symm

lemma ensure_index_idem (vec : String → List ℚ) (r : RState) :
    (ensure_index vec ((ensure_index vec r).1)).1 = (ensure_index vec r).1 ∧
    (ensure_index vec ((ensure_index vec r).1)).2 = 0 := by
  cases h : r.embeddings <;> simp [ensure_index, h]

lemma retrieve_def (vec : String → List ℚ) (asort : List ℚ → List Nat) (r : RState)
    (query : String) (top_k : Nat) :
    retrieve vec asort r query top_k =
      ((ensure_index vec r).1,
        ((asort (retrieveScores vec r query)).take top_k).map
          (fun i => ((ensure_index vec r).1.snippets.getD i default,
            (retrieveScores vec r query).getD i 0))) := rfl

lemma retrieveScores_eq_scoresOf (vec : String → List ℚ) (r : RState) (query : String)
    (h : Aligned vec r) : retrieveScores vec r query = scoresOf vec r query := by
  unfold retrieveScores scoresOf
  rw [ensure_index_embeds vec r h, ensure_index_snippets]
  simp only [Option.getD_some, List.map_map]
  rw [List.zipWith_map, List.zipWith_same]
  rfl

lemma scoresOf_length (vec : String → List ℚ) (r : RState) (query : String) :
    (scoresOf vec r query).length = r.snippets.length := by
  simp [scoresOf]

lemma scoresOf_getD (vec : String → List ℚ) (r : RState) (query : String)
    (i : Nat) (h : i < r.snippets.length) :
    (scoresOf vec r query).getD i 0 =
      dot (vec ((r.snippets.getD i default).text)) (vec query) *
        (r.snippets.getD i default).weight := by
  have h' : i < (scoresOf vec r query).length := by
    rw [scoresOf_length]; exact h
  rw [List.getD_eq_getElem _ _ h', List.getD_eq_getElem _ _ h]
  simp [scoresOf]

lemma retrieve_hits_eq (vec : String → List ℚ) (asort : List ℚ → List Nat) (r : RState)
    (query : String) (top_k : Nat) (h : Aligned vec r) :
    (retrieve vec asort r query top_k).2 =
      ((asort (scoresOf vec r query)).take top_k).map
        (fun i => (r.snippets.getD i default, (scoresOf vec r query).getD i 0)) := by
  rw [retrieve_def, retrieveScores_eq_scoresOf vec r query h]
  simp [ensure_index_snippets]

/-! Claim theorems. -/

/-- C8: `ensure_index` is idempotent — on a fresh retriever the first call
builds and stores the matrix of every card's embedded text in exactly one
embedding-service batch request, a repeated call returns the state unchanged
and issues no request, and no single call ever issues more than one request,
so the service is invoked for the corpus at most once per retriever. -/
theorem ensure_index_idempotent (vec : String → List ℚ) (r : RState) :
    (ensure_index vec ((ensure_index vec r).1)).1 = (ensure_index vec r).1 ∧
    (ensure_index vec ((ensure_index vec r).1)).2 = 0 ∧
    (r.embeddings = none →
      (ensure_index vec r).1.embeddings =
        some (embedBatch vec (r.snippets.map (fun s => s.text))) ∧
      (ensure_index vec r).2 = 1) ∧
    (ensure_index vec r).2 ≤ 1 := by
  refine ⟨(ensure_index_idem vec r).1, (ensure_index_idem vec r).2, ?_, ?_⟩ <;>
    cases h : r.embeddings <;> simp [ensure_index, h]

/-- C8 witness: evaluating the theorem on a fresh one-card retriever. -/
theorem ensure_index_idempotent_witness :
    (ensure_index vecOne (RState.mk [snipA] none)).1.embeddings =
      some (embedBatch vecOne ([snipA].map (fun s => s.text))) ∧
    (ensure_index vecOne (RState.mk [snipA] none)).2 = 1 :=
  (ensure_index_idempotent vecOne (RState.mk [snipA] none)).2.2.1 rfl

/-- C9: whenever the alignment invariant holds of a state (a fresh retriever
satisfies it vacuously), both `ensure_index` and `retrieve` keep the snippet
list unchanged and preserve the invariant, and after `ensure_index` row `i` of
the stored matrix is exactly the embedding of snippet `i`'s text. -/
theorem index_row_alignment (vec : String → List ℚ) (asort : List ℚ → List Nat)
    (r : RState) (query : String) (top_k : Nat) (h : Aligned vec r) :
    Aligned vec (ensure_index vec r).1 ∧
    (ensure_index vec r).1.snippets = r.snippets ∧
    Aligned vec (retrieve vec asort r query top_k).1 ∧
    (retrieve vec asort r query top_k).1.snippets = r.snippets ∧
    (∀ i, i < r.snippets.length →
      ((ensure_index vec r).1.embeddings.getD []).getD i [] =
        vec ((r.snippets.getD i default).text)) := by
  have hA := aligned_ensure_index vec r h
  refine ⟨hA, ensure_index_snippets vec r, ?_, ?_, ?_⟩
  · rw [retrieve_def]; exact hA
  · rw [retrieve_def]; exact ensure_index_snippets vec r
  · intro i hi
    rw [ensure_index_embeds vec r h, Option.getD_some]
    have hi' : i < (r.snippets.map (fun s => vec s.text)).length := by
      simpa using hi
    rw [List.getD_eq_getElem _ _ hi', List.getD_eq_getElem _ _ hi]
    simp

/-- C9 witness: evaluating the theorem on a fresh two-card retriever, whose
alignment invariant holds vacuously. -/
theorem index_row_alignment_witness :
    Aligned vecOne (ensure_index vecOne (RState.mk [snipA, snipB] none)).1 ∧
    (ensure_index vecOne (RState.mk [snipA, snipB] none)).1.snippets = [snipA, snipB] :=
  ⟨(index_row_alignment vecOne argsortStable (RState.mk [snipA, snipB] none) "q" 2
      (fun _ hE => nomatch hE)).1,
   (index_row_alignment vecOne argsortStable (RState.mk [snipA, snipB] none) "q" 2
      (fun _ hE => nomatch hE)).2.1⟩

/-- C1 (amended): the score `retrieve` assigns to each returned hit is the
cosine similarity of the embedded query and card text (their dot product, the
vectors being unit-normalized by `_embed`) multiplied by the card's static
weight — and by nothing else: `retrieve` has no pack-bias parameter, so the
claimed `packBias.get(card.pack, 1.0)` factor appears only as the default
`1.0` of the empty bias mapping. -/
theorem retrieve_score_formula (vec : String → List ℚ) (asort : List ℚ → List Nat)
    (r : RState) (query : String) (top_k : Nat)
    (hs : SortSpec asort) (ha : Aligned vec r) :
    (retrieve vec asort r query top_k).2 =
      ((asort (scoresOf vec r query)).take top_k).map
        (fun i => (r.snippets.getD i default,
          specScore vec [] query (r.snippets.getD i default))) := by
  rw [retrieve_hits_eq vec asort r query top_k ha]
  refine List.map_congr_left ?_
  intro i hi
  have hmem : i ∈ asort (scoresOf vec r query) := List.take_subset _ _ hi
  have hlt : i < r.snippets.length := by
    have hm := sortSpec_mem_lt hs (scoresOf vec r query) i hmem
    rwa [scoresOf_length] at hm
  rw [scoresOf_getD vec r query i hlt]
  simp only [specScore, biasGet, List.lookup_nil, Option.getD_none, mul_one]
  rw [dot_comm]

/-- C1 witness: evaluating the amended theorem on a one-card retriever. -/
theorem retrieve_score_formula_witness :
    (retrieve vecOne argsortStable (RState.mk [snipA] none) "q" 1).2 =
      ((argsortStable (scoresOf vecOne (RState.mk [snipA] none) "q")).take 1).map
        (fun i => ((RState.mk [snipA] none).snippets.getD i default,
          specScore vecOne [] "q" ((RState.mk [snipA] none).snippets.getD i default))) :=
  retrieve_score_formula vecOne argsortStable (RState.mk [snipA] none) "q" 1
    sortSpec_argsortStable (fun _ hE => nomatch hE)

/-- C1 as stated is false on the code: `retrieve` accepts no pack-bias mapping
and multiplies no bias in — under a caller bias of `2` for the card's pack the
claimed score is `2`, while the score `retrieve` assigns is `1`. -/
theorem retrieve_score_ignores_pack_bias :
    (retrieve vecOne argsortStable (RState.mk [snipA] none) "q" 1).2 = [(snipA, 1)] ∧
    specScore vecOne [("packA", 2)] "q" snipA = 2 ∧ ((1 : ℚ) ≠ 2) := by
  refine ⟨?_, ?_, by norm_num⟩
  · rw [retrieve_hits_eq vecOne argsortStable (RState.mk [snipA] none) "q" 1 (fun _ hE => nomatch hE)]
    have hsc : scoresOf vecOne (RState.mk [snipA] none) "q" = [1] := by
      norm_num [scoresOf, vecOne, snipA, dot]
    rw [hsc]
    have hsort : argsortStable [1] = [0] := by
      norm_num [argsortStable, List.insertionSort, List.orderedInsert, List.range_succ]
    rw [hsort]
    simp
  · norm_num [specScore, biasGet, vecOne, snipA, dot, List.lookup]

/-- C4 (amended): for any argsort conforming to the `np.argsort` contract,
`retrieve` returns at most `top_k` hits with non-increasing scores, and the
result is deterministic for identical inputs — in particular a repeated call
on the state the first call returned yields the identical hit list.  The
order of equal scores, however, is whatever the (unstable) argsort chose,
not necessarily the corpus order. -/
theorem retrieve_topk_sorted_deterministic (vec : String → List ℚ)
    (asort : List ℚ → List Nat) (r : RState) (query : String) (top_k : Nat)
    (hs : SortSpec asort) :
    (retrieve vec asort r query top_k).2.length ≤ top_k ∧
    ((retrieve vec asort r query top_k).2.map (fun h => h.2)).Pairwise
      (fun a b => b ≤ a) ∧
    (retrieve vec asort (retrieve vec asort r query top_k).1 query top_k).2 =
      (retrieve vec asort r query top_k).2 := by
  refine ⟨?_, ?_, ?_⟩
  · rw [retrieve_def]
    simp only [List.length_map, List.length_take]
    exact inf_le_left
  · rw [retrieve_def]
    simp only [List.map_map]
    rw [List.pairwise_map]
    exact List.Pairwise.sublist (List.take_sublist _ _)
      ((hs (retrieveScores vec r query)).2)
  · have h1 := (ensure_index_idem vec r).1
    rw [retrieve_def, retrieve_def]
    simp only [retrieveScores, h1]

/-- C4 witness: evaluating the amended theorem on a two-card retriever with
the index-order-stable argsort. -/
theorem retrieve_topk_sorted_deterministic_witness :
    (retrieve vecOne argsortStable (RState.mk [snipA, snipB] none) "q" 2).2.length ≤ 2 ∧
    ((retrieve vecOne argsortStable (RState.mk [snipA, snipB] none) "q" 2).2.map
      (fun h => h.2)).Pairwise (fun a b => b ≤ a) ∧
    (retrieve vecOne argsortStable
        (retrieve vecOne argsortStable (RState.mk [snipA, snipB] none) "q" 2).1 "q" 2).2 =
      (retrieve vecOne argsortStable (RState.mk [snipA, snipB] none) "q" 2).2 :=
  retrieve_topk_sorted_deterministic vecOne argsortStable (RState.mk [snipA, snipB] none)
    "q" 2 sortSpec_argsortStable

/-- C4 as stated is false on the code: nothing forces stable tie-breaking —
`np.argsort`'s default kind is unstable, `argsortRevTies` conforms to its
contract, and with two distinct cards of equal score `retrieve` then returns
card 1 before card 0, not in corpus order. -/
theorem retrieve_ties_not_corpus_order :
    SortSpec argsortRevTies ∧
    (retrieve vecOne argsortRevTies (RState.mk [snipA, snipB] none) "q" 2).2 =
      [(snipB, 1), (snipA, 1)] ∧
    snipB.id ≠ snipA.id := by
  refine ⟨sortSpec_argsortRevTies, ?_, by simp [snipA, snipB]⟩
  rw [retrieve_hits_eq vecOne argsortRevTies (RState.mk [snipA, snipB] none) "q" 2 (fun _ hE => nomatch hE)]
  have hsc : scoresOf vecOne (RState.mk [snipA, snipB] none) "q" = [1, 1] := by
    norm_num [scoresOf, vecOne, snipA, snipB, dot]
  rw [hsc]
  have hsort : argsortRevTies [1, 1] = [1, 0] := by
    norm_num [argsortRevTies, List.insertionSort, List.orderedInsert, descLeRev,
      List.range_succ]
  rw [hsort]
  simp

/-- C2 (amended): a valid JSON object with no `id` does not abort the load —
`card.get("id", "")` silently defaults, and the produced snippet's id is the
empty string; no `CorpusFormatError` exists anywhere in the code. -/
theorem missing_id_defaults_empty (card : List (String × JVal))
    (h : card.lookup "id" = none) (s : Snippet) (hs : loadCard card = .ok s) :
    s.id = "" := by
  unfold loadCard at hs
  cases hw : pyFloat (objGet card "weight" (.num (6 / 5))) with
  | error e => rw [hw] at hs; cases hs
  | ok w =>
      rw [hw] at hs
      injection hs with h2
      subst h2
      simp [objGet, h, pyStr]

/-- C2 witness: the concrete record of `lineNoId` loads and its id is the
empty string. -/
theorem missing_id_defaults_empty_witness : cardNoIdSnippet.id = "" :=
  missing_id_defaults_empty [("pack", JVal.str "p")] rfl cardNoIdSnippet rfl

/-- C2 as stated is false on the code: loading the one-line corpus
`{"pack": "p"}` — valid JSON with no `id` field — succeeds, producing one
card whose `id` defaulted to the empty string; no failure of any kind
occurs. -/
theorem load_missing_id_succeeds :
    (load_cards parseNoId [lineNoId]).isOk = true ∧
    ((load_cards parseNoId [lineNoId]).toOption.getD []).map (fun s => s.id) = [""] :=
  ⟨rfl, rfl⟩

/-- C3 (amended): whitespace-only lines are skipped without affecting the
outcome, and — when every earlier non-blank line decodes and loads — a
non-blank line rejected by `json.loads` aborts the whole load with exactly
the decoder's own error: the loader attaches no file line number, the decoder
only ever saw the single stripped line, and no `CorpusFormatError` type
exists. -/
theorem malformed_aborts_blank_skipped (parse : String → Except String JVal)
    (lines : List String) :
    load_cards parse (lines.filter (fun l => pyStrip l != "")) = load_cards parse lines ∧
    (∀ pre l rest e, lines = pre ++ l :: rest → pyStrip l ≠ "" →
      parse (pyStrip l) = .error e →
      (∀ l2, l2 ∈ pre → pyStrip l2 ≠ "" →
        ∃ v s, parse (pyStrip l2) = .ok v ∧ loadLine v = .ok s) →
      load_cards parse lines = .error (.jsonDecode e)) := by
  constructor
  · induction lines with
    | nil => rfl
    | cons a t ih =>
        by_cases ha : pyStrip a = ""
        · rw [List.filter_cons]
          simp only [ha]
          rw [if_neg (by simp)]
          rw [ih]
          conv_rhs => rw [load_cards]
          rw [if_pos ha]
        · rw [List.filter_cons]
          rw [if_pos (by simpa using ha)]
          conv_lhs => rw [load_cards]
          conv_rhs => rw [load_cards]
          rw [if_neg ha, if_neg ha, ih]
  · intro pre l rest e hlines hl hp
    subst hlines
    induction pre with
    | nil =>
        intro _
        rw [List.nil_append, load_cards, if_neg hl, hp]
    | cons a t ih =>
        intro hpre
        by_cases ha : pyStrip a = ""
        · rw [List.cons_append, load_cards, if_pos ha]
          exact ih (fun l2 h2 hne => hpre l2 (List.mem_cons_of_mem a h2) hne)
        · obtain ⟨v, s, hv, hsv⟩ := hpre a (List.mem_cons_self a t) ha
          rw [List.cons_append, load_cards, if_neg ha, hv]
          dsimp only
          rw [hsv]
          dsimp only
          rw [ih (fun l2 h2 hne => hpre l2 (List.mem_cons_of_mem a h2) hne)]
          rfl

/-- C3 witness: a corpus whose third line is malformed (after one good line
and one blank line) aborts with the decoder's error. -/
theorem malformed_aborts_blank_skipped_witness :
    load_cards parseBad ["\x7b\x7d", "   ", "not json"] =
      .error (.jsonDecode "Expecting value: line 1 column 1 (char 0)") :=
  (malformed_aborts_blank_skipped parseBad ["\x7b\x7d", "   ", "not json"]).2
    ["\x7b\x7d", "   "] "not json" [] "Expecting value: line 1 column 1 (char 0)"
    rfl (by decide) rfl
    (by
      intro l2 h2 hne
      rcases List.mem_cons.mp h2 with h | h
      · subst h
        exact ⟨.obj [], emptyObjSnippet, rfl, rfl⟩
      · rcases List.mem_cons.mp h with h | h
        · subst h
          exact absurd (by decide) hne
        · exact absurd h (List.not_mem_nil l2))

/-- C3 as stated is false on the code: the loader propagates the decoder's
error value unchanged, and that value is identical whether the malformed line
is the file's first line or its third (behind one good line and one skipped
blank line) — so it cannot name the malformed line's correct number in both
cases; the position in the decoder's message refers to the single decoded
line and reads `line 1` either way. -/
theorem malformed_line_error_lacks_line_number :
    load_cards parseBad ["not json"] =
      .error (.jsonDecode "Expecting value: line 1 column 1 (char 0)") ∧
    load_cards parseBad ["\x7b\x7d", " ", "not json"] =
      .error (.jsonDecode "Expecting value: line 1 column 1 (char 0)") :=
  ⟨rfl, rfl⟩

/-- C5 (amended): the loaded weight is `float(record["weight"])` — the exact
value whenever the field holds a number (even zero or negative: positivity is
never checked), and the exact rational `6/5` (the float literal `1.2`) when
the field is absent; but a value `float` cannot convert makes it raise, which
aborts the load instead of applying the default. -/
theorem weight_semantics (card : List (String × JVal)) (q : ℚ) :
    (card.lookup "weight" = none →
      (loadCard card).toOption.map (fun s => s.weight) = some (6 / 5)) ∧
    (card.lookup "weight" = some (.num q) →
      (loadCard card).toOption.map (fun s => s.weight) = some q) ∧
    (∀ e, pyFloat (objGet card "weight" (.num (6 / 5))) = .error e →
      loadCard card = .error e) := by
  refine ⟨?_, ?_, ?_⟩
  · intro h
    simp only [loadCard, objGet, h, Option.getD_none, pyFloat]
    rfl
  · intro h
    simp only [loadCard, objGet, h, Option.getD_some, pyFloat]
    rfl
  · intro e h
    simp [loadCard, h]

/-- C5 witness: an absent weight defaults to `6/5`, a numeric weight is taken
as-is, and the non-numeric weight `"heavy"` raises the conversion error. -/
theorem weight_semantics_witness :
    (loadCard []).toOption.map (fun s => s.weight) = some (6 / 5) ∧
    (loadCard [("weight", JVal.num 2)]).toOption.map (fun s => s.weight) = some 2 ∧
    loadCard [("weight", JVal.str "heavy")] =
      .error "could not convert string to float: heavy" :=
  ⟨(weight_semantics [] 0).1 rfl,
   (weight_semantics [("weight", JVal.num 2)] 2).2.1 rfl,
   (weight_semantics [("weight", JVal.str "heavy")] 0).2.2
     "could not convert string to float: heavy" rfl⟩

/-- C5 as stated is false on the code: a record whose `weight` is the
non-numeric string `"heavy"` does not get the `1.2` default — `float` raises
and the whole load aborts — and a numeric `weight` is adopted even when
negative, so the loaded weight need not be a positive float. -/
theorem nonnumeric_weight_aborts :
    (load_cards parseW [lineHeavy]).isOk = false ∧
    ((load_cards parseW [lineNegW]).toOption.getD []).map (fun s => s.weight) = [-3] ∧
    ¬ ((0 : ℚ) < -3) := by
  refine ⟨rfl, rfl, by norm_num⟩

/-- C10: the loader's `add` produces a labeled section only from a non-empty
list value — a section field that is present but not a list (for example a
plain string) is silently omitted from the card's text, neither included nor
reported — and whether a record loads at all never depends on a section
value. -/
theorem nonlist_section_omitted (label : String) (field : Option String) (items : JVal)
    (hnl : ∀ l, items ≠ JVal.arr l) :
    addSection label items field = none ∧
    (∀ lab fld it sec, addSection lab it fld = some sec →
      ∃ l, it = JVal.arr l ∧ l ≠ []) ∧
    (∀ card v w, (loadCard (("theses", v) :: card)).isOk =
      (loadCard (("theses", w) :: card)).isOk) := by
  refine ⟨?_, ?_, ?_⟩
  · cases items with
    | arr l => exact absurd rfl (hnl l)
    | bool b => cases b <;> simp [addSection, truthy]
    | null => simp [addSection, truthy]
    | num q => simp [addSection, truthy]
    | str s => simp [addSection, truthy]
    | obj o => simp [addSection, truthy]
  · intro lab fld it sec hsec
    cases it with
    | arr l =>
        refine ⟨l, rfl, ?_⟩
        intro hempty
        subst hempty
        simp [addSection, truthy] at hsec
    | bool b => cases b <;> simp [addSection, truthy] at hsec
    | null => simp [addSection, truthy] at hsec
    | num q => simp [addSection, truthy] at hsec
    | str s => simp [addSection, truthy] at hsec
    | obj o => simp [addSection, truthy] at hsec
  · intro card v w
    have hkey : ∀ u : JVal,
        objGet (("theses", u) :: card) "weight" (.num (6 / 5)) =
          objGet card "weight" (.num (6 / 5)) := by
      intro u
      have hb : ("weight" == "theses") = false := rfl
      simp [objGet, List.lookup, hb]
    unfold loadCard
    rw [hkey v, hkey w]
    cases pyFloat (objGet card "weight" (.num (6 / 5))) <;> rfl

/-- C10 witness: a string-valued `theses` field contributes no section. -/
theorem nonlist_section_omitted_witness :
    addSection "THESES" (JVal.str "a plain string, not a list") (some "text") = none :=
  (nonlist_section_omitted "THESES" (some "text") (JVal.str "a plain string, not a list")
    (fun _ h => nomatch h)).1

/-- C6: `analyze` runs its two completion calls sequentially — when the
opinion-stage call fails, the result is exactly that error and the only
request ever issued is the opinion request (the critique stage is never
attempted); when the opinion stage succeeds, the two requests are issued in
order and the critique request textually contains the returned opinion. -/
theorem analyze_two_stage (complete : String → Except String String)
    (vec : String → List ℚ) (asort : List ℚ → List Nat) (pyHash : String → Int)
    (r : RState) (query sp op cp : String) (pasted : Option String) (top_k : Nat)
    (bias : List (String × ℚ)) :
    (∀ e, complete (opinionRequest vec asort pyHash r query sp op pasted top_k) = .error e →
      analyze complete vec asort pyHash r query sp op cp pasted top_k bias =
        (.error e, [opinionRequest vec asort pyHash r query sp op pasted top_k])) ∧
    (∀ opinion,
      complete (opinionRequest vec asort pyHash r query sp op pasted top_k) = .ok opinion →
      (analyze complete vec asort pyHash r query sp op cp pasted top_k bias).2 =
        [opinionRequest vec asort pyHash r query sp op pasted top_k,
         critiqueRequest vec asort pyHash r query sp cp pasted top_k opinion] ∧
      ∃ a, critiqueRequest vec asort pyHash r query sp cp pasted top_k opinion =
        a ++ opinion) := by
  constructor
  · intro e he
    simp [analyze, he]
  · intro opinion ho
    refine ⟨?_, ⟨_, rfl⟩⟩
    cases hc : complete (critiqueRequest vec asort pyHash r query sp cp pasted top_k opinion) <;>
      simp [analyze, ho, hc]

/-- C6 witness: with an always-failing completion service the pipeline stops
after the single opinion request and surfaces the error; with an echoing
service it issues the two requests in order. -/
theorem analyze_two_stage_witness :
    analyze completeFail vecOne argsortStable pyHashLen (RState.mk [snipA] none)
        "q" "S" "O" "C" none 1 [] =
      (.error "rate limited",
       [opinionRequest vecOne argsortStable pyHashLen (RState.mk [snipA] none)
          "q" "S" "O" none 1]) ∧
    (analyze completeEcho vecOne argsortStable pyHashLen (RState.mk [snipA] none)
        "q" "S" "O" "C" none 1 []).2 =
      [opinionRequest vecOne argsortStable pyHashLen (RState.mk [snipA] none) "q" "S" "O" none 1,
       critiqueRequest vecOne argsortStable pyHashLen (RState.mk [snipA] none) "q" "S" "C" none 1
         (opinionRequest vecOne argsortStable pyHashLen (RState.mk [snipA] none)
           "q" "S" "O" none 1)] :=
  ⟨(analyze_two_stage completeFail vecOne argsortStable pyHashLen (RState.mk [snipA] none)
      "q" "S" "O" "C" none 1 []).1 "rate limited" rfl,
   ((analyze_two_stage completeEcho vecOne argsortStable pyHashLen (RState.mk [snipA] none)
      "q" "S" "O" "C" none 1 []).2
      (opinionRequest vecOne argsortStable pyHashLen (RState.mk [snipA] none)
        "q" "S" "O" none 1) rfl).1⟩

/-- C7 is violated by the code: for an external document without a
caller-supplied id the fallback `source_id` is
`"extra:" + str(abs(hash(text)))`, and Python's string `hash` is salted per
process run (`PYTHONHASHSEED`), so the id depends on the run's hash, not on
the content alone — the identical document yields different ids under the
hash functions of two runs. -/
theorem extra_source_id_depends_on_hash :
    extra_source_id pyHashLen (Doc.mk none none (some "hello")) = "extra:5" ∧
    extra_source_id pyHashLen1 (Doc.mk none none (some "hello")) = "extra:6" ∧
    ("extra:5" : String) ≠ "extra:6" := by
  refine ⟨rfl, rfl, by decide⟩
